import Mathlib

/-
Shallow embedding of src/src/webserve.cc from octave-chartjs.

The file embeds the lifecycle controller around a crow SimpleApp:
global state (app, is_routed, crow_server, served_html), the helper
functions run_crow and stop_crow, and the Octave entry point
__webserve__.  Octave's error () throws an exception that unwinds out
of the DLD function, so a call is modelled as
Except String (WState × List Event): on error the global state is
unchanged.  The observable interactions with the host (mlock, munlock)
and with the thread library (launch, detach, join) are recorded as an
event trace.  The background thread body run_crow is applied to the
app at spawn time (an interleaving in which the spawned thread runs
first); its bind parameters are also recorded in the thread handle.
-/

set_option autoImplicit false

namespace Webserve

/-- Rounding performed by octave_value.int_value () on the real
scalar n / d (with d positive): round to nearest, ties away from
zero, computed with integer arithmetic only.  For 0 ≤ n the result is
the floor of (2n + d) / 2d; a negative scalar is rounded through its
absolute value. -/
def roundNearest (n : Int) (d : Int) : Int :=
  if 0 ≤ n then (2 * n + d).fdiv (2 * d) else -((2 * (-n) + d).fdiv (2 * d))

/-- Model of the octave_value arguments received by __webserve__: a
character array, a real numeric scalar, a numeric non-scalar array, or
any other value (cell, struct, logical, ...).  A numeric scalar is
represented exactly: numScalar n d stands for the real value
n / (d + 1), so that every predicate on it is kernel-computable. -/
inductive OctValue where
  | str : String → OctValue
  | numScalar : Int → ℕ → OctValue
  | numArray : OctValue
  | other : OctValue
deriving DecidableEq

/-- The real value represented by a numeric scalar (0 on the other
constructors, which have no scalar value). -/
def OctValue.scalarValue : OctValue → ℚ
  | .numScalar n d => (n : ℚ) / ((d : ℚ) + 1)
  | _ => 0

/-- octave_value.isnumeric (). -/
def OctValue.isnumeric : OctValue → Bool
  | .numScalar _ _ => true
  | .numArray => true
  | _ => false

/-- octave_value.is_scalar_type (). -/
def OctValue.is_scalar_type : OctValue → Bool
  | .numScalar _ _ => true
  | _ => false

/-- octave_value.int_value () with its default arguments: no
integrality requirement, the scalar is rounded to the nearest integer.
The source only calls it behind isnumeric and is_scalar_type guards,
so the value on the remaining constructors is never relevant. -/
def OctValue.int_value : OctValue → Int
  | .numScalar n d => roundNearest n ((d : Int) + 1)
  | _ => 0

/-- octave_value.is_string (): true for character arrays. -/
def OctValue.is_string : OctValue → Bool
  | .str _ => true
  | _ => false

/-- The source checks args(2) with isstring (); same predicate on this
value model as is_string. -/
def OctValue.isstring : OctValue → Bool := OctValue.is_string

/-- octave_value.string_value (); only called behind a string guard. -/
def OctValue.string_value : OctValue → String
  | .str s => s
  | _ => ""

/-- Observable state of the crow SimpleApp global object: whether the
root route has been bound to it, and the bind configuration set by
run_crow once run () has been entered on it. -/
structure CrowApp where
  routed : Bool
  bindaddr : Option String
  boundPort : Option Int
  running : Bool
deriving DecidableEq

/-- A freshly constructed crow SimpleApp, as produced by the placement
new in stop_crow and by the global initializer at process start. -/
def freshApp : CrowApp := ⟨false, none, none, false⟩

/-- app.stop (): signals the run loop to unwind. -/
def CrowApp.stopSignal (a : CrowApp) : CrowApp := { a with running := false }

/-- Body of the background thread: app.bindaddr (addr).loglevel
(Warning).port (port).run ().  The log level is not observable and is
not tracked. -/
def run_crow (addr : String) (port : Int) (a : CrowApp) : CrowApp :=
  { a with bindaddr := some addr, boundPort := some port, running := true }

/-- A std thread handle as held through the crow_server pointer.  The
bind parameters the thread was created with are recorded for
observation; joinable tracks std thread joinability (cleared by
detach; join on a non-joinable thread throws std system_error). -/
structure ThreadHandle where
  addr : String
  port : Int
  joinable : Bool
deriving DecidableEq

/-- new thread (run_crow, addr, port): a freshly created, joinable
thread. -/
def ThreadHandle.spawn (addr : String) (port : Int) : ThreadHandle := ⟨addr, port, true⟩

/-- thread.detach (): the handle stops being joinable. -/
def ThreadHandle.detach (t : ThreadHandle) : ThreadHandle := { t with joinable := false }

/-- Observable events of one call: interactions with the crow app, the
thread library and the interpreter lock. -/
inductive Event where
  | appStopSignal : Event
  | joinAttempt : Event
  | joinOk : Event
  | joinFailedBenign : Event
  | appReset : Event
  | routeRegistered : Event
  | threadLaunched : String → Int → Event
  | threadDetached : Event
  | mlock : Event
  | munlock : Event
deriving DecidableEq

/-- The global mutable state of webserve.cc, together with the
interpreter-side lock status of the function. -/
structure WState where
  is_routed : Bool
  crow_server : Option ThreadHandle
  served_html : String
  app : CrowApp
  locked : Bool
deriving DecidableEq

/-- State at process start: globals default-initialized, function not
locked. -/
def initState : WState :=
  { is_routed := false
    crow_server := none
    served_html := ""
    app := freshApp
    locked := false }

/-- Default document served when no argument is given. -/
def defaultHtml : String := "This is an Octave WebServer instance!"

/-- stop_crow (): app.stop (); try to join the thread held in
crow_server if any (join succeeds only on a joinable thread, otherwise
it throws a system_error which the catch block swallows); clear
crow_server; destroy the app in place and reconstruct a fresh one;
clear is_routed. -/
def stop_crow (s : WState) : WState × List Event :=
  let s1 := { s with app := CrowApp.stopSignal s.app }
  let joinEvs : List Event :=
    match s1.crow_server with
    | none => []
    | some t =>
        Event.joinAttempt :: (if t.joinable then [Event.joinOk] else [Event.joinFailedBenign])
  ({ s1 with crow_server := none, app := freshApp, is_routed := false },
   Event.appStopSignal :: joinEvs ++ [Event.appReset])

/-- The sentinel branch of __webserve__: stop_crow () followed by
interp.munlock (). -/
def stopPath (s : WState) : WState × List Event :=
  let p := stop_crow s
  ({ p.1 with locked := false }, p.2 ++ [Event.munlock])

/-- The mutation tail of __webserve__ once the arguments have been
parsed into html, addr, port: register the root route if not yet
routed, store the document, launch (and detach) the server thread if
none is running, and interp.mlock (). -/
def startBody (html addr : String) (port : Int) (s : WState) : WState × List Event :=
  let reg :=
    if s.is_routed then (s, ([] : List Event))
    else ({ s with app := { s.app with routed := true }, is_routed := true },
          [Event.routeRegistered])
  let s2 := { reg.1 with served_html := html }
  let launch :=
    match s2.crow_server with
    | some _ => (s2, ([] : List Event))
    | none =>
        ({ s2 with app := run_crow addr port s2.app,
                   crow_server := some ((ThreadHandle.spawn addr port).detach) },
         [Event.threadLaunched addr port, Event.threadDetached])
  ({ launch.1 with locked := true }, reg.2 ++ launch.2 ++ [Event.mlock])

/-- Parsing of the html argument (nargin > 0, non-sentinel branch):
a string is accepted, anything else raises the HTML error. -/
def parseHtml (args : List OctValue) : Except String String :=
  match args.get? 0 with
  | none => Except.ok defaultHtml
  | some a0 =>
      if a0.is_string then Except.ok a0.string_value
      else Except.error ("htmlserve: HTML must be a string.")

/-- Parsing of the port argument (nargin > 1): a numeric scalar is
accepted through int_value (), anything else raises the PORT error. -/
def parsePort (args : List OctValue) : Except String Int :=
  match args.get? 1 with
  | none => Except.ok (8080 : Int)
  | some a1 =>
      if a1.isnumeric && a1.is_scalar_type then Except.ok a1.int_value
      else Except.error ("htmlserve: PORT must be a scalar integer value.")

/-- Parsing of the addr argument (nargin > 2): a string is accepted,
anything else raises the ADDR error. -/
def parseAddr (args : List OctValue) : Except String String :=
  match args.get? 2 with
  | none => Except.ok ("0.0.0.0")
  | some a2 =>
      if a2.isstring then Except.ok a2.string_value
      else Except.error ("htmlserve: ADDR must be a character vector.")

/-- Argument parsing of __webserve__ in source order (html, then port,
then addr), with the documented defaults and the three error ()
calls.  Local variables only; no global state is touched here. -/
def serveArgs (args : List OctValue) : Except String (String × Int × String) :=
  (parseHtml args).bind (fun html =>
  (parsePort args).bind (fun port =>
  (parseAddr args).bind (fun addr =>
  Except.ok (html, port, addr))))

/-- The stop-sentinel test on the first argument: nargin > 0 and
args(0).isnumeric () and args(0).is_scalar_type () and
args(0).int_value () == 0. -/
def isStopArgs (args : List OctValue) : Bool :=
  match args.get? 0 with
  | some a0 => a0.isnumeric && a0.is_scalar_type && (a0.int_value == 0)
  | none => false

/-- The DLD entry point __webserve__ (html, port, addr).  The sentinel
test comes first and returns immediately through stop_crow and
munlock; otherwise the arguments are validated (throwing before any
global mutation) and the start body runs. -/
def __webserve__ (args : List OctValue) (s : WState) : Except String (WState × List Event) :=
  if isStopArgs args then Except.ok (stopPath s)
  else (serveArgs args).map (fun x => startBody x.1 x.2.2 x.2.1 s)

/-- One interpreter-level call: an uncaught Octave error leaves the
globals as they were. -/
def stepCall (s : WState) (args : List OctValue) : WState :=
  match __webserve__ args s with
  | .ok p => p.1
  | .error _ => s

/-- A sequence of calls from a given state. -/
def runCalls : WState → List (List OctValue) → WState
  | s, [] => s
  | s, c :: cs => runCalls (stepCall s c) cs

/-- One interpreter-level call together with its event trace: a failed
call contributes no events. -/
def stepTrace (s : WState) (args : List OctValue) : WState × List Event :=
  match __webserve__ args s with
  | .ok p => p
  | .error _ => (s, [])

/-- A sequence of calls from a given state, with the concatenated
event trace. -/
def runTrace : WState → List (List OctValue) → WState × List Event
  | s, [] => (s, [])
  | s, c :: cs =>
      let p := stepTrace s c
      let q := runTrace p.1 cs
      (q.1, p.2 ++ q.2)

/-- States reachable from process start by some sequence of calls. -/
def Reachable (s : WState) : Prop :=
  ∃ cs, runCalls initState cs = s

/-- Idle of the spec state machine: no listener handle and no route
bound. -/
def IdleState (s : WState) : Prop :=
  s.crow_server = none ∧ s.is_routed = false

/-- State invariant maintained by every call: the is_routed flag
mirrors the route binding on the current app instance, and whenever a
thread handle is held the route is bound, the function is locked and
the handle is detached (never joinable). -/
def Inv (s : WState) : Prop :=
  s.is_routed = s.app.routed ∧
  ∀ t, s.crow_server = some t → s.is_routed = true ∧ s.locked = true ∧ t.joinable = false

/-- The document a successful non-stop call stores: the first argument
when it is a string, otherwise the default. -/
def htmlOf (args : List OctValue) : String :=
  match args.get? 0 with
  | some a0 => if a0.is_string then a0.string_value else defaultHtml
  | none => defaultHtml

theorem inv_initState : Inv initState := by
  constructor
  · rfl
  · intro t ht
    simp [initState] at ht

theorem inv_startBody (h a : String) (p : Int) (s : WState) (hs : Inv s) :
    Inv (startBody h a p s).1 := by
  obtain ⟨h1, h2⟩ := hs
  cases hir : s.is_routed <;> cases hcs : s.crow_server <;>
    simp_all [startBody, Inv, run_crow, ThreadHandle.spawn, ThreadHandle.detach]

theorem inv_stopPath (s : WState) : Inv (stopPath s).1 := by
  constructor
  · rfl
  · intro t ht
    simp [stopPath, stop_crow] at ht

theorem inv_stepCall (s : WState) (args : List OctValue) (hs : Inv s) :
    Inv (stepCall s args) := by
  unfold stepCall __webserve__
  by_cases hstop : isStopArgs args = true
  · simpa [hstop] using inv_stopPath s
  · simp only [hstop, if_neg, Bool.not_eq_true, if_false]
    cases hsv : serveArgs args with
    | error e => simpa [Except.map, hsv] using hs
    | ok x => simpa [Except.map, hsv] using inv_startBody x.1 x.2.2 x.2.1 s hs

theorem inv_runCalls (s : WState) (cs : List (List OctValue)) (hs : Inv s) :
    Inv (runCalls s cs) := by
  induction cs generalizing s with
  | nil => simpa [runCalls] using hs
  | cons c cs ih => exact ih _ (inv_stepCall s c hs)

theorem reachable_inv (s : WState) (h : Reachable s) : Inv s := by
  obtain ⟨cs, rfl⟩ := h
  exact inv_runCalls initState cs inv_initState

theorem serveArgs_ok_parts (args : List OctValue) (x : String × Int × String)
    (h : serveArgs args = Except.ok x) :
    parseHtml args = Except.ok x.1 ∧ parsePort args = Except.ok x.2.1 ∧
      parseAddr args = Except.ok x.2.2 := by
  unfold serveArgs at h
  cases hh : parseHtml args <;> cases hp : parsePort args <;> cases ha : parseAddr args <;>
    simp_all [Except.bind, Prod.ext_iff]

theorem parseHtml_ok_htmlOf (args : List OctValue) (h : String)
    (hh : parseHtml args = Except.ok h) : h = htmlOf args := by
  unfold parseHtml at hh
  unfold htmlOf
  cases h0 : args.get? 0
  · simp_all
  · simp only [h0] at hh ⊢
    split_ifs at hh ⊢
    all_goals simp_all

theorem startBody_congr (h a : String) (p : Int) (s₁ s₂ : WState)
    (hir : s₁.is_routed = s₂.is_routed) (hcs : s₁.crow_server = s₂.crow_server)
    (happ : s₁.app = s₂.app) (hl : s₁.locked = s₂.locked) :
    startBody h a p s₁ = startBody h a p s₂ := by
  cases s₁
  cases s₂
  simp only [WState.mk.injEq] at *
  obtain ⟨rfl, rfl, rfl, rfl⟩ := And.intro hir (And.intro hcs (And.intro happ hl))
  rename_i ir cs sh₁ ap lk sh₂
  cases ir <;> cases cs
  all_goals rfl

/-- Claim C8: a call with no arguments from the Idle state starts a
listener serving the default document on the default address 0.0.0.0
and default port 8080: it registers the root route, stores the default
document, launches (and detaches) the server thread bound to
0.0.0.0:8080 and locks the function. -/
theorem C8_default_start (s : WState) (hsrv : s.crow_server = none)
    (hrt : s.is_routed = false) :
    __webserve__ [] s =
      Except.ok
        ({ s with is_routed := true,
                  served_html := defaultHtml,
                  app := run_crow ("0.0.0.0") 8080 { s.app with routed := true },
                  crow_server := some ((ThreadHandle.spawn ("0.0.0.0") 8080).detach),
                  locked := true },
         [Event.routeRegistered, Event.threadLaunched ("0.0.0.0") 8080, Event.threadDetached,
          Event.mlock]) := by
  unfold __webserve__ isStopArgs serveArgs parseHtml parsePort parseAddr startBody
  simp [hsrv, hrt, Except.bind, Except.map]

/-- Witness for C8 at the initial state. -/
theorem C8_default_start_witness :
    __webserve__ [] initState =
      Except.ok
        ({ initState with is_routed := true,
                          served_html := defaultHtml,
                          app := run_crow ("0.0.0.0") 8080 { initState.app with routed := true },
                          crow_server := some ((ThreadHandle.spawn ("0.0.0.0") 8080).detach),
                          locked := true },
         [Event.routeRegistered, Event.threadLaunched ("0.0.0.0") 8080, Event.threadDetached,
          Event.mlock]) :=
  C8_default_start initState rfl rfl

/-- Claim C1: after any stop-sentinel call completes, the route flag
is false, the listener handle is empty and the app is a freshly
constructed unrouted instance; and every subsequent non-stop call
(in particular every Start) behaves exactly as it would from the
process-start state. -/
theorem C1_stop_resets (args : List OctValue) (s s' : WState) (evs : List Event)
    (hstop : isStopArgs args = true)
    (h : __webserve__ args s = Except.ok (s', evs)) :
    s'.is_routed = false ∧ s'.crow_server = none ∧ s'.app = freshApp ∧
      ∀ args2, isStopArgs args2 = false →
        __webserve__ args2 s' = __webserve__ args2 initState := by
  unfold __webserve__ at h
  rw [hstop] at h
  simp only [if_true, Except.ok.injEq, Prod.ext_iff] at h
  obtain ⟨hs', _⟩ := h
  have hfields : s'.is_routed = false ∧ s'.crow_server = none ∧ s'.app = freshApp ∧
      s'.locked = false := by
    rw [← hs']
    exact ⟨rfl, rfl, rfl, rfl⟩
  obtain ⟨h1, h2, h3, h4⟩ := hfields
  refine ⟨h1, h2, h3, fun args2 hns => ?_⟩
  unfold __webserve__
  rw [hns]
  simp only [Bool.false_eq_true, if_false]
  cases hsv : serveArgs args2 with
  | error e => rfl
  | ok x =>
      simp only [Except.map]
      rw [startBody_congr x.1 x.2.2 x.2.1 s' initState h1 h2 h3 h4]

/-- Witness for C1: a stop call at the initial state. -/
theorem C1_stop_resets_witness :
    initState.is_routed = false ∧ initState.crow_server = none ∧
      initState.app = freshApp ∧
      ∀ args2, isStopArgs args2 = false →
        __webserve__ args2 initState = __webserve__ args2 initState :=
  C1_stop_resets [OctValue.numScalar 0 0] initState initState
    [Event.appStopSignal, Event.appReset, Event.munlock] rfl rfl

/-- Claim C4: calling Stop when no listener is running, and calling it
again right after, never raises an error, leaves the controller in
Idle both times, and still resets the server instance each time. -/
theorem C4_stop_idle_noop (s : WState) (_hsrv : s.crow_server = none) :
    ∃ s1 evs1 s2 evs2,
      __webserve__ [OctValue.numScalar 0 0] s = Except.ok (s1, evs1) ∧
      IdleState s1 ∧ s1.app = freshApp ∧
      __webserve__ [OctValue.numScalar 0 0] s1 = Except.ok (s2, evs2) ∧
      IdleState s2 ∧ s2.app = freshApp := by
  refine ⟨(stopPath s).1, (stopPath s).2, (stopPath (stopPath s).1).1,
    (stopPath (stopPath s).1).2, ?_, ⟨rfl, rfl⟩, rfl, ?_, ⟨rfl, rfl⟩, rfl⟩
  · unfold __webserve__
    rfl
  · unfold __webserve__
    rfl

theorem routeRegistered_not_in_stop (s : WState) :
    Event.routeRegistered ∉ (stopPath s).2 := by
  unfold stopPath stop_crow
  cases hcs : s.crow_server with
  | none => simp
  | some t => cases ht : t.joinable <;> simp [ht]

theorem startBody_eq_notRouted_noSrv (h a : String) (p : Int) (s : WState)
    (hir : s.is_routed = false) (hcs : s.crow_server = none) :
    startBody h a p s =
      ({ s with is_routed := true, served_html := h,
                app := run_crow a p { s.app with routed := true },
                crow_server := some ((ThreadHandle.spawn a p).detach), locked := true },
       [Event.routeRegistered, Event.threadLaunched a p, Event.threadDetached,
        Event.mlock]) := by
  unfold startBody
  rw [hir]
  simp [hcs]

theorem startBody_eq_notRouted_srv (h a : String) (p : Int) (s : WState) (t : ThreadHandle)
    (hir : s.is_routed = false) (hcs : s.crow_server = some t) :
    startBody h a p s =
      ({ s with is_routed := true, served_html := h,
                app := { s.app with routed := true }, locked := true },
       [Event.routeRegistered, Event.mlock]) := by
  unfold startBody
  rw [hir]
  simp [hcs]

theorem startBody_eq_routed_noSrv (h a : String) (p : Int) (s : WState)
    (hir : s.is_routed = true) (hcs : s.crow_server = none) :
    startBody h a p s =
      ({ s with served_html := h, app := run_crow a p s.app,
                crow_server := some ((ThreadHandle.spawn a p).detach), locked := true },
       [Event.threadLaunched a p, Event.threadDetached, Event.mlock]) := by
  unfold startBody
  rw [hir]
  simp [hcs]
  exact hir

theorem startBody_eq_routed_srv (h a : String) (p : Int) (s : WState) (t : ThreadHandle)
    (hir : s.is_routed = true) (hcs : s.crow_server = some t) :
    startBody h a p s = ({ s with served_html := h, locked := true }, [Event.mlock]) := by
  unfold startBody
  rw [hir]
  simp [hcs]
  exact hir

/-- Claim C5: across every reachable state the route-registered flag
holds exactly when the current app instance has the root route bound;
and whenever a call registers the route, the flag was false before the
call and is true (together with the binding) after it. -/
theorem C5_route_once :
    (∀ s, Reachable s → s.is_routed = s.app.routed) ∧
    (∀ s args s' evs, __webserve__ args s = Except.ok (s', evs) →
      Event.routeRegistered ∈ evs →
      s.is_routed = false ∧ s'.is_routed = true ∧ s'.app.routed = true) := by
  constructor
  · intro s hs
    exact (reachable_inv s hs).1
  · intro s args s' evs h hmem
    unfold __webserve__ at h
    by_cases hstop : isStopArgs args = true
    · rw [hstop] at h
      simp only [if_true, Except.ok.injEq, Prod.ext_iff] at h
      exact absurd (h.2 ▸ hmem) (routeRegistered_not_in_stop s)
    · rw [if_neg (by simpa using hstop)] at h
      cases hsv : serveArgs args with
      | error e =>
          rw [hsv] at h
          exact absurd h (by simp [Except.map])
      | ok x =>
          rw [hsv] at h
          simp only [Except.map, Except.ok.injEq] at h
          cases hir : s.is_routed
          · cases hcs : s.crow_server with
            | none =>
                rw [startBody_eq_notRouted_noSrv x.1 x.2.2 x.2.1 s hir hcs] at h
                obtain ⟨hs', hevs⟩ := Prod.mk.injEq .. ▸ h
                subst hs' hevs
                exact ⟨rfl, rfl, rfl⟩
            | some t =>
                rw [startBody_eq_notRouted_srv x.1 x.2.2 x.2.1 s t hir hcs] at h
                obtain ⟨hs', hevs⟩ := Prod.mk.injEq .. ▸ h
                subst hs' hevs
                exact ⟨rfl, rfl, rfl⟩
          · exfalso
            cases hcs : s.crow_server with
            | none =>
                rw [startBody_eq_routed_noSrv x.1 x.2.2 x.2.1 s hir hcs] at h
                obtain ⟨hs', hevs⟩ := Prod.mk.injEq .. ▸ h
                subst hevs
                simp at hmem
            | some t =>
                rw [startBody_eq_routed_srv x.1 x.2.2 x.2.1 s t hir hcs] at h
                obtain ⟨hs', hevs⟩ := Prod.mk.injEq .. ▸ h
                subst hevs
                simp at hmem

/-- Witness for C5: both parts applied at the first start call from
the initial state. -/
theorem C5_route_once_witness :
    (stepCall initState []).is_routed = (stepCall initState []).app.routed ∧
      (initState.is_routed = false ∧ (stepCall initState []).is_routed = true ∧
        (stepCall initState []).app.routed = true) :=
  ⟨C5_route_once.1 (stepCall initState []) ⟨[[]], rfl⟩,
   C5_route_once.2 initState [] (stepCall initState [])
     [Event.routeRegistered, Event.threadLaunched ("0.0.0.0") 8080, Event.threadDetached,
      Event.mlock] rfl (by simp)⟩

/-- Claim C2: a successful non-stop call made while a listener handle
is held (in any reachable state) changes the state only by storing the
new document: route flag, handle, app instance (hence bind address and
port) and lock status are untouched, and the only observable action is
the mlock call — no thread launch and no route registration occur. -/
theorem C2_swap_doc_only (s : WState) (hreach : Reachable s) (t : ThreadHandle)
    (hsrv : s.crow_server = some t) (args : List OctValue)
    (hstop : isStopArgs args = false) (s' : WState) (evs : List Event)
    (h : __webserve__ args s = Except.ok (s', evs)) :
    s' = { s with served_html := htmlOf args } ∧ evs = [Event.mlock] := by
  obtain ⟨hinv1, hinv2⟩ := reachable_inv s hreach
  obtain ⟨hroute, hlock, hjoin⟩ := hinv2 t hsrv
  unfold __webserve__ at h
  rw [if_neg (by simpa using hstop)] at h
  cases hsv : serveArgs args with
  | error e =>
      rw [hsv] at h
      exact absurd h (by simp [Except.map])
  | ok x =>
      rw [hsv] at h
      simp only [Except.map, Except.ok.injEq] at h
      have hx1 : x.1 = htmlOf args :=
        parseHtml_ok_htmlOf args x.1 (serveArgs_ok_parts args x hsv).1
      rw [startBody_eq_routed_srv x.1 x.2.2 x.2.1 s t hroute hsrv] at h
      obtain ⟨hs', hevs⟩ := Prod.mk.injEq .. ▸ h
      subst hs' hevs
      refine ⟨?_, rfl⟩
      rw [hx1]
      cases s
      simp_all

/-- Witness for C2: a document swap while the first listener runs. -/
theorem C2_swap_doc_only_witness :
    ({ is_routed := true
       crow_server := some ((ThreadHandle.spawn ("0.0.0.0") 8080).detach)
       served_html := ("B")
       app := run_crow ("0.0.0.0") 8080 { freshApp with routed := true }
       locked := true } : WState) =
      { stepCall initState [] with served_html := htmlOf [OctValue.str ("B")] } ∧
    ([Event.mlock] : List Event) = [Event.mlock] :=
  C2_swap_doc_only (stepCall initState []) ⟨[[]], rfl⟩
    ((ThreadHandle.spawn ("0.0.0.0") 8080).detach) rfl [OctValue.str ("B")] rfl
    { is_routed := true
      crow_server := some ((ThreadHandle.spawn ("0.0.0.0") 8080).detach)
      served_html := ("B")
      app := run_crow ("0.0.0.0") 8080 { freshApp with routed := true }
      locked := true } [Event.mlock] rfl

/-- Witness for C4 at the initial state. -/
theorem C4_stop_idle_noop_witness :
    ∃ s1 evs1 s2 evs2,
      __webserve__ [OctValue.numScalar 0 0] initState = Except.ok (s1, evs1) ∧
      IdleState s1 ∧ s1.app = freshApp ∧
      __webserve__ [OctValue.numScalar 0 0] s1 = Except.ok (s2, evs2) ∧
      IdleState s2 ∧ s2.app = freshApp :=
  C4_stop_idle_noop initState rfl

/-- Claim C3 counterexample: after a start call the held thread handle
is already detached (not joinable), so the stop call's join attempt
fails with the swallowed system error and no successful join happens —
Stop returns without having waited for the listener thread to exit,
refuting the claim that Stop joins the thread. -/
theorem C3_cex :
    (stepCall initState []).crow_server = some ⟨("0.0.0.0"), 8080, false⟩ ∧
    __webserve__ [OctValue.numScalar 0 0] (stepCall initState []) =
      Except.ok (⟨false, none, defaultHtml, freshApp, false⟩,
        [Event.appStopSignal, Event.joinAttempt, Event.joinFailedBenign, Event.appReset,
         Event.munlock]) ∧
    Event.joinOk ∉
      ([Event.appStopSignal, Event.joinAttempt, Event.joinFailedBenign, Event.appReset,
        Event.munlock] : List Event) :=
  ⟨rfl, rfl, by decide⟩

/-- Claim C3 (amended): Stop signals the app to stop and attempts to
join the background thread, but the thread was detached at launch, so
in every reachable state the held handle is non-joinable: the join
attempt fails with a benign swallowed system error, the call still
succeeds, and no successful join ever occurs — Stop returns without
waiting for the listener thread (an already-exited thread is likewise
treated as success, never as an error). -/
theorem C3_amended_join_benign (s : WState) (hreach : Reachable s)
    (args : List OctValue) (hstop : isStopArgs args = true) :
    ∃ s' evs, __webserve__ args s = Except.ok (s', evs) ∧
      Event.joinOk ∉ evs ∧
      ∀ t, s.crow_server = some t →
        t.joinable = false ∧ Event.joinAttempt ∈ evs ∧ Event.joinFailedBenign ∈ evs := by
  refine ⟨(stopPath s).1, (stopPath s).2, ?_, ?_, ?_⟩
  · unfold __webserve__
    simp [hstop]
  · unfold stopPath stop_crow
    cases hcs : s.crow_server with
    | none => simp
    | some t =>
        have hj : t.joinable = false := ((reachable_inv s hreach).2 t hcs).2.2
        simp [hj]
  · intro t ht
    have hj : t.joinable = false := ((reachable_inv s hreach).2 t ht).2.2
    refine ⟨hj, ?_, ?_⟩ <;> unfold stopPath stop_crow <;> simp [ht, hj]

/-- Witness for the amended C3: stopping the first started listener. -/
theorem C3_amended_join_benign_witness :
    ∃ s' evs,
      __webserve__ [OctValue.numScalar 0 0] (stepCall initState []) = Except.ok (s', evs) ∧
      Event.joinOk ∉ evs ∧
      ∀ t, (stepCall initState []).crow_server = some t →
        t.joinable = false ∧ Event.joinAttempt ∈ evs ∧ Event.joinFailedBenign ∈ evs :=
  C3_amended_join_benign (stepCall initState []) ⟨[[]], rfl⟩ [OctValue.numScalar 0 0] rfl

/-- Claim C6 counterexample: a call whose first argument is the stop
sentinel and whose third argument is not a string does not raise the
ADDR validation error — it ignores the trailing arguments, succeeds,
and tears down the running listener, so the listener is not left
untouched. -/
theorem C6_cex :
    (OctValue.numScalar 5 0).isstring = false ∧
    (stepCall initState []).crow_server ≠ none ∧
    __webserve__ [OctValue.numScalar 0 0, OctValue.numScalar 8080 0, OctValue.numScalar 5 0]
        (stepCall initState []) =
      Except.ok (⟨false, none, defaultHtml, freshApp, false⟩,
        [Event.appStopSignal, Event.joinAttempt, Event.joinFailedBenign, Event.appReset,
         Event.munlock]) :=
  ⟨rfl, by decide, rfl⟩

/-- Claim C6 (amended): for every call whose first argument does not
match the stop sentinel, a non-string first argument or a non-string
third argument fails with a validation error raised before any state
change, leaving the whole state — including any running listener —
unchanged.  A call whose first argument matches the stop sentinel
ignores the remaining arguments and performs the stop instead. -/
theorem C6_amended (s : WState) (args : List OctValue) (hstop : isStopArgs args = false)
    (hbad : (∃ a0, args.get? 0 = some a0 ∧ a0.is_string = false) ∨
            (∃ a2, args.get? 2 = some a2 ∧ a2.isstring = false)) :
    (∃ msg, __webserve__ args s = Except.error msg) ∧ stepCall s args = s := by
  have herr : ∃ msg, serveArgs args = Except.error msg := by
    rcases hbad with ⟨a0, h0, hns⟩ | ⟨a2, h2, hns⟩
    · refine ⟨"htmlserve: HTML must be a string.", ?_⟩
      unfold serveArgs parseHtml
      rw [h0]
      simp [hns, Except.bind]
    · cases hh : parseHtml args with
      | error e =>
          refine ⟨e, ?_⟩
          unfold serveArgs
          rw [hh]
          rfl
      | ok hdoc =>
          cases hp : parsePort args with
          | error e =>
              refine ⟨e, ?_⟩
              unfold serveArgs
              rw [hh, hp]
              rfl
          | ok p =>
              refine ⟨"htmlserve: ADDR must be a character vector.", ?_⟩
              unfold serveArgs parseAddr
              rw [hh, hp, h2]
              simp [hns, Except.bind]
  obtain ⟨msg, hm⟩ := herr
  refine ⟨⟨msg, ?_⟩, ?_⟩
  · unfold __webserve__
    rw [if_neg (by simpa using hstop), hm]
    rfl
  · unfold stepCall __webserve__
    rw [if_neg (by simpa using hstop), hm]
    rfl

/-- Witness for the amended C6: a cell-like first argument while a
listener is running. -/
theorem C6_amended_witness :
    (∃ msg, __webserve__ [OctValue.other] (stepCall initState []) = Except.error msg) ∧
      stepCall (stepCall initState []) [OctValue.other] = stepCall initState [] :=
  C6_amended (stepCall initState []) [OctValue.other] rfl (Or.inl ⟨OctValue.other, rfl, rfl⟩)

/-- The scalar value n / (d + 1) is an integer exactly when d + 1
divides n. -/
theorem scalarValue_int_iff (n : Int) (d : ℕ) :
    (∃ m : Int, OctValue.scalarValue (OctValue.numScalar n d) = (m : ℚ)) ↔
      ((d : Int) + 1) ∣ n := by
  unfold OctValue.scalarValue
  have hd : ((d : ℚ) + 1) ≠ 0 := by positivity
  constructor
  · rintro ⟨m, hm⟩
    refine ⟨m, ?_⟩
    rw [div_eq_iff hd] at hm
    exact_mod_cast hm.trans (mul_comm (m : ℚ) ((d : ℚ) + 1))
  · rintro ⟨m, rfl⟩
    refine ⟨m, ?_⟩
    rw [div_eq_iff hd]
    push_cast
    ring

/-- Claim C7 counterexample: the numeric scalar 32321 / 4 = 8080.25 is
not an integer, yet passing it as the port does not raise the PORT
validation error — the call succeeds and the listener is launched on
port 8080, the int_value rounding of 8080.25. -/
theorem C7_cex :
    (¬ ∃ m : Int, OctValue.scalarValue (OctValue.numScalar 32321 3) = (m : ℚ)) ∧
    __webserve__ [OctValue.str ("A"), OctValue.numScalar 32321 3] initState =
      Except.ok
        ({ initState with is_routed := true, served_html := ("A"),
                          app := run_crow ("0.0.0.0") 8080 { initState.app with routed := true },
                          crow_server := some ((ThreadHandle.spawn ("0.0.0.0") 8080).detach),
                          locked := true },
         [Event.routeRegistered, Event.threadLaunched ("0.0.0.0") 8080, Event.threadDetached,
          Event.mlock]) :=
  ⟨fun h => absurd ((scalarValue_int_iff 32321 3).1 h) (by decide), rfl⟩

/-- Claim C7 (amended): with a string document, a second argument that
is a numeric scalar is always accepted — integral or not — and the
call proceeds with the port int_value () produces (rounding the
scalar); only a non-numeric or non-scalar second argument fails with
the PORT validation error, which leaves the state unchanged. -/
theorem C7_amended (s : WState) (d : String) (a1 : OctValue) :
    __webserve__ [OctValue.str d, a1] s =
      if a1.isnumeric && a1.is_scalar_type
      then Except.ok (startBody d ("0.0.0.0") a1.int_value s)
      else Except.error ("htmlserve: PORT must be a scalar integer value.") := by
  have h0 : isStopArgs [OctValue.str d, a1] = false := rfl
  unfold __webserve__
  rw [if_neg (by simpa using h0)]
  unfold serveArgs parseHtml parsePort parseAddr
  cases hn : a1.isnumeric && a1.is_scalar_type <;>
    simp [hn, OctValue.is_string, OctValue.string_value, Except.bind, Except.map]

/-- Claim C10 counterexample: the numeric scalar 3 / 10 = 0.3 is
different from 0, yet it triggers the stop sentinel (its int_value
rounds to 0): the call succeeds, performs the stop and tears down the
running listener instead of failing with the HTML validation error. -/
theorem C10_cex :
    OctValue.scalarValue (OctValue.numScalar 3 9) ≠ 0 ∧
    (stepCall initState []).crow_server ≠ none ∧
    __webserve__ [OctValue.numScalar 3 9] (stepCall initState []) =
      Except.ok (⟨false, none, defaultHtml, freshApp, false⟩,
        [Event.appStopSignal, Event.joinAttempt, Event.joinFailedBenign, Event.appReset,
         Event.munlock]) :=
  ⟨by norm_num [OctValue.scalarValue], by decide, rfl⟩

/-- Claim C10 (amended): a single numeric scalar argument triggers the
stop sentinel exactly when its int_value () conversion rounds to 0 —
not only at the exact value 0; every other numeric scalar fails with
the HTML validation error and changes nothing. -/
theorem C10_amended (s : WState) (n : Int) (d : ℕ) :
    __webserve__ [OctValue.numScalar n d] s =
      if OctValue.int_value (OctValue.numScalar n d) = 0
      then Except.ok (stopPath s)
      else Except.error ("htmlserve: HTML must be a string.") := by
  unfold __webserve__ isStopArgs
  by_cases hz : OctValue.int_value (OctValue.numScalar n d) = 0
  · simp [hz, OctValue.isnumeric, OctValue.is_scalar_type]
  · simp [hz, OctValue.isnumeric, OctValue.is_scalar_type, serveArgs, parseHtml,
      OctValue.is_string, Except.bind, Except.map]

/-- The running state reached by a no-argument start from process
start. -/
def s0run : WState :=
  { is_routed := true
    crow_server := some ((ThreadHandle.spawn ("0.0.0.0") 8080).detach)
    served_html := defaultHtml
    app := run_crow ("0.0.0.0") 8080 { freshApp with routed := true }
    locked := true }

/-- The running state after the document has been swapped to B. -/
def sB : WState := { s0run with served_html := ("B") }

theorem swap_cycle_counts (n : ℕ) :
    ((runTrace sB (List.replicate n [OctValue.str ("B")] ++
        [[OctValue.numScalar 0 0]])).2.count Event.mlock = n) ∧
    ((runTrace sB (List.replicate n [OctValue.str ("B")] ++
        [[OctValue.numScalar 0 0]])).2.count Event.munlock = 1) := by
  induction n with
  | zero => exact ⟨by decide, by decide⟩
  | succ n ih =>
      have hstep : stepTrace sB [OctValue.str ("B")] = (sB, [Event.mlock]) := rfl
      rw [List.replicate_succ, List.cons_append]
      simp only [runTrace, hstep, List.count_append, List.count_cons, List.count_nil]
      constructor
      · rw [ih.1]
        simp
        omega
      · rw [ih.2]
        simp

/-- Claim C9 counterexample: a full Start-to-Stop cycle with one
intervening document-swap Start (start, swap to B, stop — beginning
and ending Idle) calls the lock hook twice, not exactly once; the
unlock hook is called once. -/
theorem C9_cex :
    IdleState initState ∧
    IdleState (runTrace initState
      [[], [OctValue.str ("B")], [OctValue.numScalar 0 0]]).1 ∧
    (runTrace initState
      [[], [OctValue.str ("B")], [OctValue.numScalar 0 0]]).2.count Event.mlock = 2 ∧
    (runTrace initState
      [[], [OctValue.str ("B")], [OctValue.numScalar 0 0]]).2.count Event.munlock = 1 :=
  ⟨⟨rfl, rfl⟩, ⟨rfl, rfl⟩, by decide, by decide⟩

/-- Claim C9 (amended): in a Start-to-Stop cycle with n intervening
document-swap Start calls, the unlock hook is called exactly once (by
the final Stop), while the lock hook is called n + 1 times — once per
successful serve call — so it is called exactly once per cycle only
when no Start call intervenes. -/
theorem C9_amended (n : ℕ) :
    ((runTrace initState ([[]] ++ List.replicate n [OctValue.str ("B")] ++
        [[OctValue.numScalar 0 0]])).2.count Event.mlock = n + 1) ∧
    ((runTrace initState ([[]] ++ List.replicate n [OctValue.str ("B")] ++
        [[OctValue.numScalar 0 0]])).2.count Event.munlock = 1) := by
  cases n with
  | zero => exact ⟨by decide, by decide⟩
  | succ n =>
      have h1 : stepTrace initState [] =
          (s0run, [Event.routeRegistered, Event.threadLaunched ("0.0.0.0") 8080,
            Event.threadDetached, Event.mlock]) := rfl
      have h2 : stepTrace s0run [OctValue.str ("B")] = (sB, [Event.mlock]) := rfl
      have htail := swap_cycle_counts n
      rw [List.cons_append, List.nil_append, List.replicate_succ, List.cons_append]
      simp only [runTrace, h1, h2, List.count_append, List.count_cons, List.count_nil]
      constructor
      · simp only [List.append_eq]
        rw [htail.1]
        simp
        omega
      · simp only [List.append_eq]
        rw [htail.2]
        simp

/-- Witness for the amended C7 at the non-integer scalar 8080.25. -/
theorem C7_amended_witness :
    __webserve__ [OctValue.str ("A"), OctValue.numScalar 32321 3] initState =
      if (OctValue.numScalar 32321 3).isnumeric && (OctValue.numScalar 32321 3).is_scalar_type
      then Except.ok
        (startBody ("A") ("0.0.0.0") (OctValue.numScalar 32321 3).int_value initState)
      else Except.error ("htmlserve: PORT must be a scalar integer value.") :=
  C7_amended initState ("A") (OctValue.numScalar 32321 3)

/-- Witness for the amended C9 at one intervening swap call. -/
theorem C9_amended_witness :
    ((runTrace initState ([[]] ++ List.replicate 1 [OctValue.str ("B")] ++
        [[OctValue.numScalar 0 0]])).2.count Event.mlock = 1 + 1) ∧
    ((runTrace initState ([[]] ++ List.replicate 1 [OctValue.str ("B")] ++
        [[OctValue.numScalar 0 0]])).2.count Event.munlock = 1) :=
  C9_amended 1

/-- Witness for the amended C10 at the scalar 0.3. -/
theorem C10_amended_witness :
    __webserve__ [OctValue.numScalar 3 9] initState =
      if OctValue.int_value (OctValue.numScalar 3 9) = 0
      then Except.ok (stopPath initState)
      else Except.error ("htmlserve: HTML must be a string.") :=
  C10_amended initState 3 9

end Webserve
